import Mathlib

/-!
Shallow embedding of the acqualities chat API route (`/api/chat`).

The route parses a JSON body, fuzzy-matches the user message against a
static list of neighborhood records, composes a system prompt (optionally
appending a neighborhood context block when the best fuzzy score exceeds
0.7), calls an upstream chat-completion API, and returns either a JSON
envelope `{ parsed: { response, location } }` or an error JSON.

Two near-identical handler variants exist in the source; both are
embedded below (`POSTA` for the globalized-prompt variant, `POSTB` for
the South-Florida-prompt variant).

Strings are modelled as Lean `String`; floating-point scores and
coordinates as `ℚ`; the upstream API and environment as explicit data.
-/

/-- Modelled from the spec: the `fuzzyjs` library's `match` function is not
vendored in the repository, so its score is modelled from the spec's words:
"a normalized [0,1] similarity measure between two strings based on
subsequence alignment" that "rewards contiguous and ordered character
matches".  `isSubseq q s` is the ordered (subsequence) alignment test. -/
def isSubseq : List Char → List Char → Bool
  | [], _ => true
  | _ :: _, [] => false
  | a :: as, b :: bs => if a = b then isSubseq as bs else isSubseq (a :: as) bs

/-- Length of the longest common prefix of two character lists (the length
of the contiguous run obtained by aligning the query at this position). -/
def commonPrefixLen : List Char → List Char → Nat
  | a :: as, b :: bs => if a = b then commonPrefixLen as bs + 1 else 0
  | _, _ => 0

/-- The best contiguous run of the query found anywhere in the source:
the maximum, over all alignment positions of `s`, of the length of the
contiguous initial run of `q` matched there. -/
def bestRun (q s : List Char) : Nat :=
  (s.tails.map fun t => commonPrefixLen q t).foldl Nat.max 0

/-- Modelled from the spec: normalized fuzzy-match score in `[0,1]`.
Zero when the query is not an ordered subsequence of the source;
otherwise the longest contiguous aligned run divided by the query
length, so an exact substring occurrence scores `1`. -/
def matchScore (q s : String) : ℚ :=
  if isSubseq q.toList s.toList then
    (bestRun q.toList s.toList : ℚ) / (q.toList.length : ℚ)
  else 0

/-- Character-level lower-casing (the route calls `.toLowerCase()` on the
message and on each neighborhood name before scoring). -/
def toLowerStr (s : String) : String := ⟨s.toList.map Char.toLower⟩

/-- The ten climate-parameter fields of a neighborhood record
(`neighborhoods.json` schema used by the route). -/
structure ClimateParameters where
  flood_risk : String
  storm_surge : String
  heat_index : String
  sea_level_rise : String
  precipitation_trends : String
  wind_risk : String
  coastal_erosion : String
  groundwater_intrusion : String
  infrastructure_resilience : String
  adaptation_cost_estimate : String
deriving DecidableEq

/-- A neighborhood record as read from the static dataset. -/
structure NeighborhoodRecord where
  name : String
  description : String
  lat : ℚ
  lon : ℚ
  climate_parameters : ClimateParameters
  vulnerability : String
  solutions : String
deriving DecidableEq

/-- The `reduce` over the dataset (source lines 47–53): fold with the
strict-greater comparison `score > (best.score || 0)`, starting from
`{ score: 0 }` (no record).  Takes the already-lowercased message. -/
def matchedNeighborhood (neighborhoods : List NeighborhoodRecord)
    (lowerMessage : String) : Option NeighborhoodRecord × ℚ :=
  neighborhoods.foldl
    (fun best n =>
      let score := matchScore (toLowerStr n.name) lowerMessage
      if best.2 < score then (some n, score) else best)
    (none, 0)

/-- Source line 55: `matchedNeighborhood.score > 0.7 ? matchedNeighborhood
: null` — the accepted match, or none when the best score is ≤ 0.7. -/
def neighborhood (message : String) (neighborhoods : List NeighborhoodRecord) :
    Option NeighborhoodRecord :=
  let m := matchedNeighborhood neighborhoods (toLowerStr message)
  if (7 : ℚ) / 10 < m.2 then m.1 else none

/-- Boolean test that `q` occurs contiguously (as an exact substring, at
the character level) inside `s`. -/
def containsB (q s : String) : Bool :=
  s.toList.tails.any fun t => q.toList.isPrefixOf t

/-- `ContainsStr q s`: the string `q` occurs verbatim (contiguously)
inside `s`. -/
def ContainsStr (q s : String) : Prop :=
  ∃ x y : String, s = x ++ q ++ y

/-- The fixed base system-prompt template of the first handler variant
(the "globalized" prompt, source lines 58–77). -/
def basePromptA : String :=
  "You are a global climate risk and urban resilience advisor with expertise in flood modeling, storm surge forecasting, heat risk, and infrastructure adaptation. \n\nFORMATTING GUIDELINES:\n- Use clear, conversational formatting\n- Keep numbers, percentages, and risk levels inline (e.g., \"High – 40% chance\")\n- Use sections for readability but avoid excessive line breaks\n- Use bullet points only for concrete action items\n\nRESPONSE STYLE:\n- Lead with the most critical risks\n- Provide actionable, prioritized recommendations\n- Reference national, state, or local regulations, building codes, and agencies where relevant\n- Include realistic timelines and cost implications when possible\n- When location context is available, mention specific mitigation programs, grants, or authorities (e.g., FEMA in the U.S., NDMA in India, EU Floods Directive in Europe)\n\nTECHNICAL ACCURACY:\n- Base risk assessments on known data sources: FEMA flood zones (U.S.), Copernicus (EU), national hazard maps, historical storm records, sea level rise projections\n- Consider compound risks (storm surge + heavy rain, drought + heatwaves)\n- Include insurance or financial resilience considerations (e.g., NFIP in U.S., local insurance schemes)\n- Suggest both immediate and long-term adaptation strategies"

/-- The fixed base system-prompt template of the second handler variant
(the South-Florida prompt, source lines 191–211). -/
def basePromptB : String :=
  "You are a South Florida climate risk specialist with expertise in flood modeling, urban planning, and resilience strategies. Your responses should be:\n\nFORMATTING GUIDELINES:\n- Use clean, chat-friendly formatting without excessive line breaks\n- Keep risk percentages and measurements on the same line (e.g., \"High – 40% chance\" not \"High\n40% chance\")\n- Use clear sections with proper spacing but avoid overly fragmented text\n- Present numerical data inline with descriptions\n- Use bullet points sparingly and only for clear action items\n\nRESPONSE STYLE:\n- Lead with the most critical risk information\n- Provide specific, actionable recommendations\n- Reference local South Florida conditions and regulations\n- Include realistic timelines and cost considerations when relevant\n- Mention relevant agencies (FEMA, SFWMD, local emergency management)\n\nTECHNICAL ACCURACY:\n- Base flood risk assessments on FEMA flood zones, historical data, and sea level rise projections\n- Reference current building codes (Florida Building Code, local ordinances)\n- Include insurance implications (NFIP rates, flood insurance requirements)\n- Consider compound risks (storm surge + rainfall, heat + flooding)"

/-- The neighborhood data lines shared verbatim by both variants' context
blocks (source lines 80–96 and 214–230 are identical). -/
def neighborhoodContextCore (n : NeighborhoodRecord) : String :=
  "\n\nSPECIFIC NEIGHBORHOOD CONTEXT:\nName: " ++ n.name ++
  "\nDescription: " ++ n.description ++
  "\nCurrent Flood Risk: " ++ n.climate_parameters.flood_risk ++
  "\nStorm Surge Potential: " ++ n.climate_parameters.storm_surge ++
  "\nHeat Risk: " ++ n.climate_parameters.heat_index ++
  "\nSea Level Rise Projection: " ++ n.climate_parameters.sea_level_rise ++
  "\nPrecipitation Trends: " ++ n.climate_parameters.precipitation_trends ++
  "\nWind Risk: " ++ n.climate_parameters.wind_risk ++
  "\nCoastal Erosion: " ++ n.climate_parameters.coastal_erosion ++
  "\nGroundwater Intrusion: " ++ n.climate_parameters.groundwater_intrusion ++
  "\nInfrastructure Resilience: " ++ n.climate_parameters.infrastructure_resilience ++
  "\nAdaptation Cost Estimate: " ++ n.climate_parameters.adaptation_cost_estimate ++
  "\nOverall Vulnerability: " ++ n.vulnerability ++
  "\nRecommended Solutions: " ++ n.solutions

/-- Context block appended by the first variant when a neighborhood is
matched (source lines 80–98). -/
def neighborhoodContextA (n : NeighborhoodRecord) : String :=
  "\n\nSPECIFIC NEIGHBORHOOD CONTEXT:\nName: " ++ n.name ++
  "\nDescription: " ++ n.description ++
  "\nCurrent Flood Risk: " ++ n.climate_parameters.flood_risk ++
  "\nStorm Surge Potential: " ++ n.climate_parameters.storm_surge ++
  "\nHeat Risk: " ++ n.climate_parameters.heat_index ++
  "\nSea Level Rise Projection: " ++ n.climate_parameters.sea_level_rise ++
  "\nPrecipitation Trends: " ++ n.climate_parameters.precipitation_trends ++
  "\nWind Risk: " ++ n.climate_parameters.wind_risk ++
  "\nCoastal Erosion: " ++ n.climate_parameters.coastal_erosion ++
  "\nGroundwater Intrusion: " ++ n.climate_parameters.groundwater_intrusion ++
  "\nInfrastructure Resilience: " ++ n.climate_parameters.infrastructure_resilience ++
  "\nAdaptation Cost Estimate: " ++ n.climate_parameters.adaptation_cost_estimate ++
  "\nOverall Vulnerability: " ++ n.vulnerability ++
  "\nRecommended Solutions: " ++ n.solutions ++
  "\n\nUse this data to provide highly localized recommendations and reference any country- or region-specific policies or agencies that apply."

/-- Context block appended by the second variant when a neighborhood is
matched (source lines 214–232). -/
def neighborhoodContextB (n : NeighborhoodRecord) : String :=
  "\n\nSPECIFIC NEIGHBORHOOD CONTEXT:\nName: " ++ n.name ++
  "\nDescription: " ++ n.description ++
  "\nCurrent Flood Risk: " ++ n.climate_parameters.flood_risk ++
  "\nStorm Surge Potential: " ++ n.climate_parameters.storm_surge ++
  "\nHeat Risk: " ++ n.climate_parameters.heat_index ++
  "\nSea Level Rise Projection: " ++ n.climate_parameters.sea_level_rise ++
  "\nPrecipitation Trends: " ++ n.climate_parameters.precipitation_trends ++
  "\nWind Risk: " ++ n.climate_parameters.wind_risk ++
  "\nCoastal Erosion: " ++ n.climate_parameters.coastal_erosion ++
  "\nGroundwater Intrusion: " ++ n.climate_parameters.groundwater_intrusion ++
  "\nInfrastructure Resilience: " ++ n.climate_parameters.infrastructure_resilience ++
  "\nAdaptation Cost Estimate: " ++ n.climate_parameters.adaptation_cost_estimate ++
  "\nOverall Vulnerability: " ++ n.vulnerability ++
  "\nRecommended Solutions: " ++ n.solutions ++
  "\n\nUse this data to provide specific, localized advice. Reference the exact risk levels and tailor solutions to this neighborhood's characteristics."

/-- First variant's composed system prompt: the base template, with the
neighborhood context appended when a neighborhood was matched. -/
def systemPromptA (nb : Option NeighborhoodRecord) : String :=
  match nb with
  | none => basePromptA
  | some n => basePromptA ++ neighborhoodContextA n

/-- Second variant's composed system prompt. -/
def systemPromptB (nb : Option NeighborhoodRecord) : String :=
  match nb with
  | none => basePromptB
  | some n => basePromptB ++ neighborhoodContextB n

/-- Chat message role. -/
inductive Role where
  | user
  | assistant
  | system
deriving DecidableEq

/-- A chat message sent to the upstream completion API. -/
structure ChatMessage where
  role : Role
  content : String
deriving DecidableEq

/-- The parsed request body.  The route's `ChatRequest` interface declares
`message` and `sessionId`; the client additionally sends a `history`
array in the JSON body, which the handler never reads. -/
structure ChatRequest where
  message : String
  sessionId : String
  history : List ChatMessage
deriving DecidableEq

/-- The handler's environment: the `GROQ_API_KEY` variable, the
neighborhood dataset (`none` models an unreadable/unparsable
`neighborhoods.json`), and the upstream chat-completion call
(`Except.error` models a thrown API exception; the `Option String` is
`response.choices?[0]?.message?.content`, `none` when absent). -/
structure Env where
  apiKey : Option String
  dataset : Option (List NeighborhoodRecord)
  upstream : List ChatMessage → Except String (Option String)

/-- The HTTP outcome of the route: a 400 error JSON, a 500 error JSON
(with optional `details`), or a 200 JSON `\x7b parsed: \x7b response,
location \x7d \x7d` envelope. -/
inductive HandlerResult where
  | badRequest (error : String)
  | serverError (error : String) (details : Option String)
  | ok (response : String) (location : Option (ℚ × ℚ))
deriving DecidableEq

/-- HTTP status code of a handler result. -/
def HandlerResult.status : HandlerResult → Nat
  | .badRequest _ => 400
  | .serverError _ _ => 500
  | .ok _ _ => 200

/-- The two-message conversation sent upstream: the composed system
prompt followed by the raw user message. -/
def conversation (sp : Option NeighborhoodRecord → String)
    (neighborhoods : List NeighborhoodRecord) (message : String) :
    List ChatMessage :=
  [⟨Role.system, sp (neighborhood message neighborhoods)⟩,
   ⟨Role.user, message⟩]

/-- The route handler, parameterized by the system-prompt composer.
`body = none` models a request whose JSON failed to parse.  Mirrors the
source control flow: body parse → message validation → API-key check →
dataset read → fuzzy match → prompt composition → upstream call →
empty-content check → JSON envelope. -/
def POSTwith (sp : Option NeighborhoodRecord → String) (env : Env)
    (body : Option ChatRequest) : HandlerResult :=
  match body with
  | none => HandlerResult.badRequest "Invalid request body"
  | some b =>
    if b.message = "" then
      HandlerResult.badRequest "Message is required and must be a string"
    else if env.apiKey.getD "" = "" then
      HandlerResult.serverError "Groq API key not set" none
    else
      match env.dataset with
      | none => HandlerResult.serverError "Internal data error" none
      | some neighborhoods =>
        match env.upstream (conversation sp neighborhoods b.message) with
        | Except.error e =>
          HandlerResult.serverError "Chat processing failed" (some e)
        | Except.ok none =>
          HandlerResult.serverError "Empty response from model" none
        | Except.ok (some c) =>
          if c = "" then
            HandlerResult.serverError "Empty response from model" none
          else
            HandlerResult.ok c
              ((neighborhood b.message neighborhoods).map fun r => (r.lat, r.lon))

/-- The first handler variant (source lines 16–133), embedded verbatim:
identical to `POSTwith systemPromptA` by unfolding. -/
def POSTA (env : Env) (body : Option ChatRequest) : HandlerResult :=
  match body with
  | none => HandlerResult.badRequest "Invalid request body"
  | some b =>
    if b.message = "" then
      HandlerResult.badRequest "Message is required and must be a string"
    else if env.apiKey.getD "" = "" then
      HandlerResult.serverError "Groq API key not set" none
    else
      match env.dataset with
      | none => HandlerResult.serverError "Internal data error" none
      | some neighborhoods =>
        match env.upstream (conversation systemPromptA neighborhoods b.message) with
        | Except.error e =>
          HandlerResult.serverError "Chat processing failed" (some e)
        | Except.ok none =>
          HandlerResult.serverError "Empty response from model" none
        | Except.ok (some c) =>
          if c = "" then
            HandlerResult.serverError "Empty response from model" none
          else
            HandlerResult.ok c
              ((neighborhood b.message neighborhoods).map fun r => (r.lat, r.lon))

/-- The second handler variant (source lines 149–266), embedded verbatim:
identical to the first except for the system-prompt template. -/
def POSTB (env : Env) (body : Option ChatRequest) : HandlerResult :=
  match body with
  | none => HandlerResult.badRequest "Invalid request body"
  | some b =>
    if b.message = "" then
      HandlerResult.badRequest "Message is required and must be a string"
    else if env.apiKey.getD "" = "" then
      HandlerResult.serverError "Groq API key not set" none
    else
      match env.dataset with
      | none => HandlerResult.serverError "Internal data error" none
      | some neighborhoods =>
        match env.upstream (conversation systemPromptB neighborhoods b.message) with
        | Except.error e =>
          HandlerResult.serverError "Chat processing failed" (some e)
        | Except.ok none =>
          HandlerResult.serverError "Empty response from model" none
        | Except.ok (some c) =>
          if c = "" then
            HandlerResult.serverError "Empty response from model" none
          else
            HandlerResult.ok c
              ((neighborhood b.message neighborhoods).map fun r => (r.lat, r.lon))

/-- One step of the dataset `reduce`, factored out for reasoning:
keeps the incumbent unless the new score is strictly greater. -/
def stepBest {α : Type} (s : α → ℚ) (best : Option α × ℚ) (n : α) :
    Option α × ℚ :=
  if best.2 < s n then (some n, s n) else best

/-- Blank climate parameters, for sample records. -/
def emptyParams : ClimateParameters := ⟨"", "", "", "", "", "", "", "", "", ""⟩

/-- A minimal sample record with the given name. -/
def mkRec (nm : String) : NeighborhoodRecord := ⟨nm, "", 0, 0, emptyParams, "", ""⟩

/-- A sample dataset record shaped like a `neighborhoods.json` entry. -/
def brickellRec : NeighborhoodRecord :=
  ⟨"Brickell", "Dense urban financial district", 257617/10000, -801918/10000,
   ⟨"High", "Moderate", "Elevated", "2ft by 2060", "Increasing", "High",
    "Moderate", "Present", "Moderate", "1.2B USD"⟩,
   "High", "Elevated roads and pump stations"⟩

/-- Sample environment: API key set, dataset readable, upstream succeeds
with non-empty content regardless of the conversation. -/
def envBrickell : Env :=
  ⟨some "key", some [brickellRec], fun _ => Except.ok (some "answer")⟩

/-- Sample environment with the API key unset. -/
def envNoKey : Env :=
  ⟨none, some [brickellRec], fun _ => Except.ok (some "answer")⟩

/-- Sample environment whose upstream succeeds but with absent content. -/
def envEmptyContent : Env :=
  ⟨some "key", some [brickellRec], fun _ => Except.ok none⟩

/-- A sample request body. -/
def reqBrickell : ChatRequest :=
  ⟨"What is the flood risk in Brickell?", "session-1", []⟩

/-! ## Lemmas about the fuzzy-match score -/

lemma isSubseq_iff_sublist : ∀ (q s : List Char), isSubseq q s = true ↔ List.Sublist q s := by
  intro q s
  induction s generalizing q with
  | nil =>
    cases q with
    | nil => simp [isSubseq]
    | cons a as => simp [isSubseq]
  | cons b bs ih =>
    cases q with
    | nil => simp [isSubseq, List.nil_sublist]
    | cons a as =>
      by_cases hab : a = b
      · subst hab
        have he : isSubseq (a :: as) (a :: bs) = isSubseq as bs := by
          simp [isSubseq]
        rw [he, ih as]
        constructor
        · exact fun h => List.Sublist.cons₂ a h
        · intro h
          cases h with
          | cons _ h' => exact (List.sublist_cons_self a as).trans h'
          | cons₂ _ h' => exact h'
      · have he : isSubseq (a :: as) (b :: bs) = isSubseq (a :: as) bs := by
          simp [isSubseq, hab]
        rw [he, ih (a :: as)]
        constructor
        · exact fun h => List.Sublist.cons b h
        · intro h
          cases h with
          | cons _ h' => exact h'
          | cons₂ _ h' => exact absurd rfl hab

lemma isSubseq_of_substring {q s : List Char} (x y : List Char)
    (h : s = x ++ q ++ y) : isSubseq q s = true := by
  rw [isSubseq_iff_sublist, h]
  have h1 : List.Sublist q (q ++ y) := List.sublist_append_left q y
  have h2 : List.Sublist (q ++ y) (x ++ (q ++ y)) :=
    List.sublist_append_right x (q ++ y)
  simp only [List.append_assoc]
  exact h1.trans h2

lemma commonPrefixLen_le_left : ∀ (q t : List Char), commonPrefixLen q t ≤ q.length := by
  intro q
  induction q with
  | nil => intro t; cases t <;> simp [commonPrefixLen]
  | cons a as ih =>
    intro t
    cases t with
    | nil => simp [commonPrefixLen]
    | cons b bs =>
      by_cases hab : a = b
      · simpa [commonPrefixLen, hab] using Nat.succ_le_succ (ih bs)
      · simp [commonPrefixLen, hab]

lemma commonPrefixLen_self_append : ∀ (q y : List Char), commonPrefixLen q (q ++ y) = q.length := by
  intro q y
  induction q with
  | nil => cases y <;> simp [commonPrefixLen]
  | cons a as ih => simpa [commonPrefixLen] using ih

lemma foldl_nmax_le {c : Nat} : ∀ (l : List Nat) (b : Nat), b ≤ c →
    (∀ v ∈ l, v ≤ c) → l.foldl Nat.max b ≤ c := by
  intro l
  induction l with
  | nil => intro b hb _; simpa using hb
  | cons v vs ih =>
    intro b hb hall
    simp only [List.foldl_cons]
    exact ih _ (Nat.max_le.mpr ⟨hb, hall v (List.mem_cons_self v vs)⟩)
      (fun w hw => hall w (List.mem_cons_of_mem v hw))

lemma self_le_foldl_nmax : ∀ (l : List Nat) (b : Nat), b ≤ l.foldl Nat.max b := by
  intro l
  induction l with
  | nil => simp
  | cons u us ih =>
    intro b
    simp only [List.foldl_cons]
    exact le_trans (Nat.le_max_left b u) (ih _)

lemma le_foldl_nmax {v : Nat} : ∀ (l : List Nat) (b : Nat), v ∈ l → v ≤ l.foldl Nat.max b := by
  intro l
  induction l with
  | nil => intro b h; simp at h
  | cons w ws ih =>
    intro b h
    rcases List.mem_cons.mp h with h | h
    · subst h
      simp only [List.foldl_cons]
      exact le_trans (Nat.le_max_right b v) (self_le_foldl_nmax ws _)
    · simpa using ih _ h

lemma bestRun_le (q s : List Char) : bestRun q s ≤ q.length := by
  apply foldl_nmax_le
  · exact Nat.zero_le _
  · intro v hv
    rcases List.mem_map.mp hv with ⟨t, _, rfl⟩
    exact commonPrefixLen_le_left q t

lemma bestRun_eq_of_substring {q s : List Char} (x y : List Char)
    (h : s = x ++ q ++ y) : bestRun q s = q.length := by
  apply le_antisymm (bestRun_le q s)
  apply le_foldl_nmax
  rw [← commonPrefixLen_self_append q y]
  apply List.mem_map.mpr
  refine ⟨q ++ y, ?_, rfl⟩
  rw [(List.mem_tails _ _)]
  exact ⟨x, by simp [h, List.append_assoc]⟩

lemma containsB_decomp {q s : String} (h : containsB q s = true) :
    ∃ x y : List Char, s.toList = x ++ q.toList ++ y := by
  rcases List.any_eq_true.mp h with ⟨t, ht, hp⟩
  rcases (List.mem_tails _ _).mp ht with ⟨x, hx⟩
  rcases List.isPrefixOf_iff_prefix.mp hp with ⟨y, hy⟩
  exact ⟨x, y, by rw [← hx, ← hy]; simp [List.append_assoc]⟩

lemma matchScore_nonneg (q s : String) : 0 ≤ matchScore q s := by
  unfold matchScore
  split
  · exact div_nonneg (Nat.cast_nonneg _) (Nat.cast_nonneg _)
  · exact le_refl 0

lemma matchScore_le_one (q s : String) : matchScore q s ≤ 1 := by
  unfold matchScore
  split
  · exact div_le_one_of_le₀ (Nat.cast_le.mpr (bestRun_le _ _)) (Nat.cast_nonneg _)
  · norm_num

lemma matchScore_eq_one_of_contains {q s : String} (hq : q.toList ≠ [])
    (h : containsB q s = true) : matchScore q s = 1 := by
  rcases containsB_decomp h with ⟨x, y, hxy⟩
  unfold matchScore
  rw [if_pos (isSubseq_of_substring x y hxy), bestRun_eq_of_substring x y hxy]
  exact div_self (Nat.cast_ne_zero.mpr (List.length_pos.mpr hq).ne')

/-! ## Lemmas about the best-match fold -/

lemma matchedNeighborhood_eq_fold (ns : List NeighborhoodRecord) (q : String) :
    matchedNeighborhood ns q =
      ns.foldl (stepBest fun n => matchScore (toLowerStr n.name) q) (none, 0) := rfl

lemma stepBest_char {α : Type} (s : α → ℚ) (ns : List α) :
    ∀ (rec : Option α) (b : ℚ),
      (ns.foldl (stepBest s) (rec, b) = (rec, b) ∧ ∀ m ∈ ns, s m ≤ b) ∨
      (∃ r pre post,
        (ns.foldl (stepBest s) (rec, b)).1 = some r ∧
        ns = pre ++ r :: post ∧
        s r = (ns.foldl (stepBest s) (rec, b)).2 ∧
        b < (ns.foldl (stepBest s) (rec, b)).2 ∧
        (∀ m ∈ pre, s m < (ns.foldl (stepBest s) (rec, b)).2) ∧
        (∀ m ∈ post, s m ≤ (ns.foldl (stepBest s) (rec, b)).2)) := by
  induction ns with
  | nil =>
    intro rec b
    exact Or.inl ⟨rfl, by simp⟩
  | cons n ns ih =>
    intro rec b
    by_cases h : b < s n
    · have hs : stepBest s (rec, b) n = (some n, s n) := by simp [stepBest, h]
      simp only [List.foldl_cons, hs]
      rcases ih (some n) (s n) with ⟨heq, hall⟩ | ⟨r, pre, post, h1, h2, h3, h4, h5, h6⟩
      · refine Or.inr ⟨n, [], ns, ?_, by simp, ?_, ?_, by simp, ?_⟩
        · rw [heq]
        · rw [heq]
        · rw [heq]; exact h
        · intro m hm; rw [heq]; exact hall m hm
      · refine Or.inr ⟨r, n :: pre, post, h1, by rw [h2]; simp, h3, lt_trans h h4, ?_, h6⟩
        intro m hm
        rcases List.mem_cons.mp hm with rfl | hm
        · exact h4
        · exact h5 m hm
    · have hs : stepBest s (rec, b) n = (rec, b) := by simp [stepBest, h]
      simp only [List.foldl_cons, hs]
      rcases ih rec b with ⟨heq, hall⟩ | ⟨r, pre, post, h1, h2, h3, h4, h5, h6⟩
      · refine Or.inl ⟨heq, ?_⟩
        intro m hm
        rcases List.mem_cons.mp hm with rfl | hm
        · exact le_of_not_lt h
        · exact hall m hm
      · refine Or.inr ⟨r, n :: pre, post, h1, by rw [h2]; simp, h3, h4, ?_, h6⟩
        intro m hm
        rcases List.mem_cons.mp hm with rfl | hm
        · exact lt_of_le_of_lt (le_of_not_lt h) h4
        · exact h5 m hm

lemma matchedNeighborhood_char (ns : List NeighborhoodRecord) (q : String) :
    (matchedNeighborhood ns q = (none, 0) ∧
      ∀ m ∈ ns, matchScore (toLowerStr m.name) q ≤ 0) ∨
    (∃ r pre post,
      (matchedNeighborhood ns q).1 = some r ∧
      ns = pre ++ r :: post ∧
      matchScore (toLowerStr r.name) q = (matchedNeighborhood ns q).2 ∧
      0 < (matchedNeighborhood ns q).2 ∧
      (∀ m ∈ pre, matchScore (toLowerStr m.name) q < (matchedNeighborhood ns q).2) ∧
      (∀ m ∈ post, matchScore (toLowerStr m.name) q ≤ (matchedNeighborhood ns q).2)) := by
  rw [matchedNeighborhood_eq_fold]
  exact stepBest_char _ ns none 0

lemma matched_snd_nonneg (ns : List NeighborhoodRecord) (q : String) :
    0 ≤ (matchedNeighborhood ns q).2 := by
  rcases matchedNeighborhood_char ns q with ⟨heq, _⟩ | ⟨_, _, _, _, _, _, h4, _, _⟩
  · rw [heq]
  · exact le_of_lt h4

lemma matched_snd_le_one (ns : List NeighborhoodRecord) (q : String) :
    (matchedNeighborhood ns q).2 ≤ 1 := by
  rcases matchedNeighborhood_char ns q with ⟨heq, _⟩ | ⟨r, _, _, _, _, h3, _, _, _⟩
  · rw [heq]; norm_num
  · rw [← h3]; exact matchScore_le_one _ _

lemma score_le_matched_snd {ns : List NeighborhoodRecord} {q : String}
    {m : NeighborhoodRecord} (hm : m ∈ ns) :
    matchScore (toLowerStr m.name) q ≤ (matchedNeighborhood ns q).2 := by
  rcases matchedNeighborhood_char ns q with ⟨heq, hall⟩ | ⟨r, pre, post, _, h2, h3, _, h5, h6⟩
  · rw [heq]; exact hall m hm
  · rw [h2] at hm
    rcases List.mem_append.mp hm with hm | hm
    · exact le_of_lt (h5 m hm)
    · rcases List.mem_cons.mp hm with rfl | hm
      · exact le_of_eq h3
      · exact h6 m hm

lemma matched_isSome_of_snd_pos {ns : List NeighborhoodRecord} {q : String}
    (h : 0 < (matchedNeighborhood ns q).2) :
    ∃ r, (matchedNeighborhood ns q).1 = some r := by
  rcases matchedNeighborhood_char ns q with ⟨heq, _⟩ | ⟨r, _, _, h1, _, _, _, _, _⟩
  · rw [heq] at h; exact absurd h (lt_irrefl 0)
  · exact ⟨r, h1⟩

lemma matched_none_scores {ns : List NeighborhoodRecord} {q : String}
    (h : (matchedNeighborhood ns q).1 = none) :
    ∀ m ∈ ns, matchScore (toLowerStr m.name) q = 0 := by
  rcases matchedNeighborhood_char ns q with ⟨_, hall⟩ | ⟨r, _, _, h1, _, _, _, _, _⟩
  · exact fun m hm => le_antisymm (hall m hm) (matchScore_nonneg _ _)
  · rw [h1] at h; exact absurd h (by simp)

/-! ## String-containment helpers -/

lemma containsStr_self (n b : String) : ContainsStr n (n ++ b) := by
  refine ⟨"", b, ?_⟩
  apply String.ext
  simp [String.data_append]

lemma containsStr_left {n h : String} (a : String) (hc : ContainsStr n h) :
    ContainsStr n (a ++ h) := by
  rcases hc with ⟨x, y, rfl⟩
  exact ⟨a ++ x, y, by simp [String.append_assoc]⟩

/-! ## Concrete evaluations used by witnesses and counterexamples -/

lemma xyz_matched :
    matchedNeighborhood [mkRec "xyz"] (toLowerStr "hello") = (none, 0) := by
  decide

lemma xyz_below :
    (matchedNeighborhood [mkRec "xyz"] (toLowerStr "hello")).2 ≤ 7 / 10 := by
  rw [xyz_matched]
  norm_num

lemma brickell_score :
    matchScore (toLowerStr brickellRec.name)
      (toLowerStr "What is the flood risk in Brickell?") = 1 :=
  matchScore_eq_one_of_contains (by decide) (by decide)

lemma brickell_matched :
    matchedNeighborhood [brickellRec] (toLowerStr "What is the flood risk in Brickell?") =
      (some brickellRec, 1) := by
  rw [matchedNeighborhood_eq_fold]
  simp only [List.foldl_cons, List.foldl_nil, stepBest, brickell_score]
  norm_num

lemma brickell_above :
    7 / 10 < (matchedNeighborhood [brickellRec]
      (toLowerStr "What is the flood risk in Brickell?")).2 := by
  rw [brickell_matched]
  norm_num

lemma brickell_neighborhood :
    neighborhood "What is the flood risk in Brickell?" [brickellRec] = some brickellRec := by
  unfold neighborhood
  rw [brickell_matched]
  norm_num

lemma aa_score : matchScore (toLowerStr (mkRec "aa").name) (toLowerStr "aa bb") = 1 :=
  matchScore_eq_one_of_contains (by decide) (by decide)

lemma bb_score : matchScore (toLowerStr (mkRec "bb").name) (toLowerStr "aa bb") = 1 :=
  matchScore_eq_one_of_contains (by decide) (by decide)

lemma aabb_matched :
    matchedNeighborhood [mkRec "aa", mkRec "bb"] (toLowerStr "aa bb") =
      (some (mkRec "aa"), 1) := by
  rw [matchedNeighborhood_eq_fold]
  simp only [List.foldl_cons, List.foldl_nil, stepBest, aa_score, bb_score]
  norm_num

lemma aabb_neighborhood :
    neighborhood "aa bb" [mkRec "aa", mkRec "bb"] = some (mkRec "aa") := by
  unfold neighborhood
  rw [aabb_matched]
  norm_num

/-! ## Handler evaluation helpers -/

lemma postA_ok_nonempty (env : Env) (body : Option ChatRequest) (c : String)
    (loc : Option (ℚ × ℚ)) (h : POSTA env body = HandlerResult.ok c loc) : c ≠ "" := by
  cases body with
  | none => simp [POSTA] at h
  | some b =>
    simp only [POSTA] at h
    by_cases h1 : b.message = ""
    · rw [if_pos h1] at h; simp at h
    rw [if_neg h1] at h
    by_cases h2 : env.apiKey.getD "" = ""
    · rw [if_pos h2] at h; simp at h
    rw [if_neg h2] at h
    cases hds : env.dataset with
    | none => rw [hds] at h; simp at h
    | some ns =>
      rw [hds] at h
      simp only [] at h
      cases hup : env.upstream (conversation systemPromptA ns b.message) with
      | error e => rw [hup] at h; simp at h
      | ok oc =>
        rw [hup] at h
        cases oc with
        | none => simp at h
        | some c2 =>
          simp only [] at h
          by_cases hc : c2 = ""
          · rw [if_pos hc] at h; simp at h
          · rw [if_neg hc] at h
            cases h
            exact hc

lemma postA_brickell_eval :
    POSTA envBrickell (some reqBrickell) =
      HandlerResult.ok "answer" (some (brickellRec.lat, brickellRec.lon)) := by
  simp only [POSTA, envBrickell, reqBrickell, brickell_neighborhood]
  rw [if_neg (by decide), if_neg (by decide), if_neg (by decide)]
  rfl

/-! ## Claim theorems -/

/-- Claim C1: neighborhood context is injected into the system prompt if
and only if the best fuzzy-match score is strictly greater than 0.7: when
the best score is ≤ 0.7 the matched-neighborhood value is none and the
composed system prompt is exactly the base template (no neighborhood
block); when it is > 0.7 the matched record's neighborhood-context block
is appended to the base template. -/
theorem spec_C1_threshold_iff_context (msg : String) (ns : List NeighborhoodRecord) :
    ((matchedNeighborhood ns (toLowerStr msg)).2 ≤ 7 / 10 →
      neighborhood msg ns = none ∧
      systemPromptA (neighborhood msg ns) = basePromptA) ∧
    (7 / 10 < (matchedNeighborhood ns (toLowerStr msg)).2 →
      ∃ r, neighborhood msg ns = some r ∧
        systemPromptA (neighborhood msg ns) = basePromptA ++ neighborhoodContextA r) := by
  constructor
  · intro h
    have hn : neighborhood msg ns = none := by
      unfold neighborhood
      rw [if_neg (not_lt.mpr h)]
    exact ⟨hn, by rw [hn]; rfl⟩
  · intro h
    have hpos : 0 < (matchedNeighborhood ns (toLowerStr msg)).2 :=
      lt_trans (by norm_num) h
    rcases matched_isSome_of_snd_pos hpos with ⟨r, hr⟩
    have hn : neighborhood msg ns = some r := by
      unfold neighborhood
      rw [if_pos h, hr]
    exact ⟨r, hn, by rw [hn]; rfl⟩

/-- Claim C1 witness: on a query with no resemblance the prompt is the
bare base template; on a query containing "Brickell" the context block
for the matched record is appended. -/
theorem spec_C1_witness :
    (neighborhood "hello" [mkRec "xyz"] = none ∧
      systemPromptA (neighborhood "hello" [mkRec "xyz"]) = basePromptA) ∧
    (∃ r, neighborhood "What is the flood risk in Brickell?" [brickellRec] = some r ∧
      systemPromptA (neighborhood "What is the flood risk in Brickell?" [brickellRec]) =
        basePromptA ++ neighborhoodContextA r) :=
  ⟨(spec_C1_threshold_iff_context "hello" [mkRec "xyz"]).1 xyz_below,
   (spec_C1_threshold_iff_context "What is the flood risk in Brickell?" [brickellRec]).2
     brickell_above⟩

/-- Claim C2 (as amended): the strict-greater fold selects at most one
record: the empty collection yields no match; a selected record comes
with a strictly positive best score and is the first record attaining
the running maximum (all earlier records score strictly less, all later
ones score no more); when no record is selected every score is 0;
conversely, when every score is 0 no record is selected (the result is
exactly `(none, 0)`); and a record is selected as soon as some score is
positive.  (The original claim's "exactly one record is selected for
every non-empty collection" fails when every score is 0.) -/
theorem spec_C2_first_max_selection (msg : String) (ns : List NeighborhoodRecord)
    (_hmsg : msg ≠ "") :
    (ns = [] → matchedNeighborhood ns (toLowerStr msg) = (none, 0)) ∧
    (∀ r, (matchedNeighborhood ns (toLowerStr msg)).1 = some r →
      ∃ pre post, ns = pre ++ r :: post ∧
        matchScore (toLowerStr r.name) (toLowerStr msg) =
          (matchedNeighborhood ns (toLowerStr msg)).2 ∧
        0 < (matchedNeighborhood ns (toLowerStr msg)).2 ∧
        (∀ m ∈ pre, matchScore (toLowerStr m.name) (toLowerStr msg) <
          (matchedNeighborhood ns (toLowerStr msg)).2) ∧
        (∀ m ∈ post, matchScore (toLowerStr m.name) (toLowerStr msg) ≤
          (matchedNeighborhood ns (toLowerStr msg)).2)) ∧
    ((matchedNeighborhood ns (toLowerStr msg)).1 = none →
      ∀ m ∈ ns, matchScore (toLowerStr m.name) (toLowerStr msg) = 0) ∧
    ((∀ m ∈ ns, matchScore (toLowerStr m.name) (toLowerStr msg) = 0) →
      matchedNeighborhood ns (toLowerStr msg) = (none, 0)) ∧
    ((∃ m ∈ ns, 0 < matchScore (toLowerStr m.name) (toLowerStr msg)) →
      ∃ r, (matchedNeighborhood ns (toLowerStr msg)).1 = some r) := by
  refine ⟨?_, ?_, ?_, ?_, ?_⟩
  · intro h; subst h; rfl
  · intro r hr
    rcases matchedNeighborhood_char ns (toLowerStr msg) with
      ⟨heq, _⟩ | ⟨r2, pre, post, h1, h2, h3, h4, h5, h6⟩
    · rw [heq] at hr; exact absurd hr (by simp)
    · rw [h1] at hr
      injection hr with hr
      subst hr
      exact ⟨pre, post, h2, h3, h4, h5, h6⟩
  · exact matched_none_scores
  · intro hall
    rcases matchedNeighborhood_char ns (toLowerStr msg) with
      ⟨heq, _⟩ | ⟨r2, pre, post, h1, h2, h3, h4, h5, h6⟩
    · exact heq
    · have hz : matchScore (toLowerStr r2.name) (toLowerStr msg) = 0 :=
        hall r2 (by rw [h2]; simp)
      exact absurd h4 (by rw [← h3, hz]; exact lt_irrefl 0)
  · intro h
    rcases h with ⟨m, hm, hpos⟩
    apply matched_isSome_of_snd_pos
    exact lt_of_lt_of_le hpos (score_le_matched_snd hm)

/-- Claim C2 witness: the empty collection yields no match with score 0. -/
theorem spec_C2_witness :
    matchedNeighborhood ([] : List NeighborhoodRecord) (toLowerStr "hello") = (none, 0) :=
  (spec_C2_first_max_selection "hello" [] (by decide)).1 rfl

/-- Claim C2 counterexample: a non-empty query and a non-empty collection
on which the matcher selects no record at all (every score is 0, and the
strict-greater comparison never fires), contradicting "the matcher
selects exactly one record: the one with the maximum score". -/
theorem spec_C2_counterexample :
    "hello" ≠ "" ∧ [mkRec "xyz"] ≠ ([] : List NeighborhoodRecord) ∧
    (matchedNeighborhood [mkRec "xyz"] (toLowerStr "hello")).1 = none :=
  ⟨by decide, by decide, by decide⟩

/-- Claim C3 (as amended): for every query containing an exact, non-empty
neighborhood name as a substring (case-insensitively), the best score is
1 (thus strictly above the 0.7 threshold) and a neighborhood's context is
injected; the injected record is the first record attaining the maximum
score 1 (every record before it scores strictly less than 1, every record
after it at most 1), and it is the named record itself whenever no record
placed before the named one attains the maximum score 1. -/
theorem spec_C3_substring_above_threshold (msg : String)
    (ns : List NeighborhoodRecord) (r : NeighborhoodRecord)
    (hmem : r ∈ ns) (hname : (toLowerStr r.name).toList ≠ [])
    (hsub : containsB (toLowerStr r.name) (toLowerStr msg) = true) :
    (matchedNeighborhood ns (toLowerStr msg)).2 = 1 ∧
    7 / 10 < (matchedNeighborhood ns (toLowerStr msg)).2 ∧
    ∃ r2, neighborhood msg ns = some r2 ∧ r2 ∈ ns ∧
      matchScore (toLowerStr r2.name) (toLowerStr msg) = 1 ∧
      systemPromptA (neighborhood msg ns) = basePromptA ++ neighborhoodContextA r2 ∧
      (∃ pre post, ns = pre ++ r2 :: post ∧
        (∀ m ∈ pre, matchScore (toLowerStr m.name) (toLowerStr msg) < 1) ∧
        (∀ m ∈ post, matchScore (toLowerStr m.name) (toLowerStr msg) ≤ 1)) ∧
      ((∀ pre post, ns = pre ++ r :: post →
          ∀ m ∈ pre, matchScore (toLowerStr m.name) (toLowerStr msg) < 1) →
        r2 = r) := by
  have hone : matchScore (toLowerStr r.name) (toLowerStr msg) = 1 :=
    matchScore_eq_one_of_contains hname hsub
  have hsnd : (matchedNeighborhood ns (toLowerStr msg)).2 = 1 := by
    apply le_antisymm (matched_snd_le_one ns (toLowerStr msg))
    rw [← hone]
    exact score_le_matched_snd hmem
  have hth : 7 / 10 < (matchedNeighborhood ns (toLowerStr msg)).2 := by
    rw [hsnd]; norm_num
  refine ⟨hsnd, hth, ?_⟩
  rcases matchedNeighborhood_char ns (toLowerStr msg) with
    ⟨heq, _⟩ | ⟨r2, pre, post, h1, h2, h3, _, h5, h6⟩
  · rw [heq] at hsnd; simp at hsnd
  · have hn : neighborhood msg ns = some r2 := by
      unfold neighborhood
      rw [if_pos hth, h1]
    have h5' : ∀ m ∈ pre, matchScore (toLowerStr m.name) (toLowerStr msg) < 1 :=
      fun m hm => hsnd ▸ h5 m hm
    have h6' : ∀ m ∈ post, matchScore (toLowerStr m.name) (toLowerStr msg) ≤ 1 :=
      fun m hm => hsnd ▸ h6 m hm
    refine ⟨r2, hn, by rw [h2]; simp, by rw [h3, hsnd], by rw [hn]; rfl,
      ⟨pre, post, h2, h5', h6'⟩, ?_⟩
    intro hfirst
    have hmem2 : r ∈ pre ++ r2 :: post := h2 ▸ hmem
    rcases List.mem_append.mp hmem2 with hpre | hrest
    · exact absurd (h5' r hpre) (by rw [hone]; exact lt_irrefl 1)
    · rcases List.mem_cons.mp hrest with heq2 | hpost
      · exact heq2.symm
      · rcases List.append_of_mem hpost with ⟨p1, p2, hp⟩
        have hns : ns = (pre ++ r2 :: p1) ++ r :: p2 := by
          rw [h2, hp]; simp
        have hlt := hfirst (pre ++ r2 :: p1) p2 hns r2 (by simp)
        rw [h3, hsnd] at hlt
        exact absurd hlt (lt_irrefl 1)

/-- Claim C3 witness: the Brickell scenario — the query contains the
record's name, the record is matched and is first-max in the singleton
dataset, and its context is appended. -/
theorem spec_C3_witness :
    ∃ r2, neighborhood "What is the flood risk in Brickell?" [brickellRec] = some r2 ∧
      r2 ∈ [brickellRec] ∧
      matchScore (toLowerStr r2.name)
        (toLowerStr "What is the flood risk in Brickell?") = 1 ∧
      systemPromptA (neighborhood "What is the flood risk in Brickell?" [brickellRec]) =
        basePromptA ++ neighborhoodContextA r2 ∧
      (∃ pre post, [brickellRec] = pre ++ r2 :: post ∧
        (∀ m ∈ pre, matchScore (toLowerStr m.name)
          (toLowerStr "What is the flood risk in Brickell?") < 1) ∧
        (∀ m ∈ post, matchScore (toLowerStr m.name)
          (toLowerStr "What is the flood risk in Brickell?") ≤ 1)) ∧
      ((∀ pre post, [brickellRec] = pre ++ brickellRec :: post →
          ∀ m ∈ pre, matchScore (toLowerStr m.name)
            (toLowerStr "What is the flood risk in Brickell?") < 1) →
        r2 = brickellRec) :=
  (spec_C3_substring_above_threshold "What is the flood risk in Brickell?"
    [brickellRec] brickellRec (List.mem_singleton.mpr rfl) (by decide) (by decide)).2.2

/-- Claim C3 counterexample: the query "aa bb" contains the name of the
second record "bb" exactly, yet the matcher returns the first record
"aa" (an earlier record attaining the same maximum score wins), so the
matcher does not return "that neighborhood" as the claim states. -/
theorem spec_C3_counterexample :
    containsB (toLowerStr (mkRec "bb").name) (toLowerStr "aa bb") = true ∧
    mkRec "bb" ∈ [mkRec "aa", mkRec "bb"] ∧
    neighborhood "aa bb" [mkRec "aa", mkRec "bb"] = some (mkRec "aa") ∧
    neighborhood "aa bb" [mkRec "aa", mkRec "bb"] ≠ some (mkRec "bb") := by
  refine ⟨by decide, by decide, aabb_neighborhood, ?_⟩
  rw [aabb_neighborhood]
  decide

/-- Claim C4: for every pair of strings, the fuzzy-match score is a
normalized rational in the closed interval [0,1]. -/
theorem spec_C4_score_normalized (q s : String) :
    0 ≤ matchScore q s ∧ matchScore q s ≤ 1 :=
  ⟨matchScore_nonneg q s, matchScore_le_one q s⟩

/-- Claim C5: for every matched neighborhood record, the composed system
prompt (in either template variant) contains the literal value of every
climate-parameter field as well as the vulnerability and solutions
fields, and the composed prompt is determined by the template version and
the matched record (it equals the variant's base template with the
record's context block appended). -/
theorem spec_C5_prompt_contains_fields (r : NeighborhoodRecord) :
    (ContainsStr r.climate_parameters.flood_risk (systemPromptA (some r)) ∧
     ContainsStr r.climate_parameters.storm_surge (systemPromptA (some r)) ∧
     ContainsStr r.climate_parameters.heat_index (systemPromptA (some r)) ∧
     ContainsStr r.climate_parameters.sea_level_rise (systemPromptA (some r)) ∧
     ContainsStr r.climate_parameters.precipitation_trends (systemPromptA (some r)) ∧
     ContainsStr r.climate_parameters.wind_risk (systemPromptA (some r)) ∧
     ContainsStr r.climate_parameters.coastal_erosion (systemPromptA (some r)) ∧
     ContainsStr r.climate_parameters.groundwater_intrusion (systemPromptA (some r)) ∧
     ContainsStr r.climate_parameters.infrastructure_resilience (systemPromptA (some r)) ∧
     ContainsStr r.climate_parameters.adaptation_cost_estimate (systemPromptA (some r)) ∧
     ContainsStr r.vulnerability (systemPromptA (some r)) ∧
     ContainsStr r.solutions (systemPromptA (some r))) ∧
    (ContainsStr r.climate_parameters.flood_risk (systemPromptB (some r)) ∧
     ContainsStr r.climate_parameters.storm_surge (systemPromptB (some r)) ∧
     ContainsStr r.climate_parameters.heat_index (systemPromptB (some r)) ∧
     ContainsStr r.climate_parameters.sea_level_rise (systemPromptB (some r)) ∧
     ContainsStr r.climate_parameters.precipitation_trends (systemPromptB (some r)) ∧
     ContainsStr r.climate_parameters.wind_risk (systemPromptB (some r)) ∧
     ContainsStr r.climate_parameters.coastal_erosion (systemPromptB (some r)) ∧
     ContainsStr r.climate_parameters.groundwater_intrusion (systemPromptB (some r)) ∧
     ContainsStr r.climate_parameters.infrastructure_resilience (systemPromptB (some r)) ∧
     ContainsStr r.climate_parameters.adaptation_cost_estimate (systemPromptB (some r)) ∧
     ContainsStr r.vulnerability (systemPromptB (some r)) ∧
     ContainsStr r.solutions (systemPromptB (some r))) ∧
    systemPromptA (some r) = basePromptA ++ neighborhoodContextA r ∧
    systemPromptB (some r) = basePromptB ++ neighborhoodContextB r := by
  and_intros <;> first
    | rfl
    | (simp only [systemPromptA, neighborhoodContextA, systemPromptB,
        neighborhoodContextB, String.append_assoc]
       repeat first
         | exact containsStr_self _ _
         | apply containsStr_left)

/-- Claim C6: whenever the upstream call succeeds with non-empty content,
the response envelope's location equals the matched record's lat/lon when
a neighborhood was matched above the threshold, and is null when no
neighborhood was matched. -/
theorem spec_C6_location_matches (env : Env) (b : ChatRequest)
    (ns : List NeighborhoodRecord) (c : String)
    (hmsg : b.message ≠ "") (hkey : env.apiKey.getD "" ≠ "")
    (hds : env.dataset = some ns)
    (hup : env.upstream (conversation systemPromptA ns b.message) = Except.ok (some c))
    (hc : c ≠ "") :
    POSTA env (some b) =
      HandlerResult.ok c ((neighborhood b.message ns).map fun r => (r.lat, r.lon)) ∧
    (∀ r, neighborhood b.message ns = some r →
      POSTA env (some b) = HandlerResult.ok c (some (r.lat, r.lon))) ∧
    (neighborhood b.message ns = none →
      POSTA env (some b) = HandlerResult.ok c none) := by
  have hmain : POSTA env (some b) =
      HandlerResult.ok c ((neighborhood b.message ns).map fun r => (r.lat, r.lon)) := by
    simp only [POSTA]
    rw [if_neg hmsg, if_neg hkey, hds]
    simp only []
    rw [hup]
    simp only []
    rw [if_neg hc]
  refine ⟨hmain, ?_, ?_⟩
  · intro r hr
    rw [hmain, hr]
    rfl
  · intro hr
    rw [hmain, hr]
    rfl

/-- Claim C6 witness: the Brickell scenario — matched record, response
envelope carries its lat/lon. -/
theorem spec_C6_witness :
    POSTA envBrickell (some reqBrickell) =
      HandlerResult.ok "answer" (some (brickellRec.lat, brickellRec.lon)) :=
  (spec_C6_location_matches envBrickell reqBrickell [brickellRec] "answer"
    (by decide) (by decide) rfl rfl (by decide)).2.1 brickellRec brickell_neighborhood

/-- Claim C7: with a valid body, a non-empty message, and the API key
unset, both handler variants return the 500 error JSON with message
"Groq API key not set", and the result does not depend on the upstream
function (no upstream call is attempted). -/
theorem spec_C7_missing_key (env : Env) (b : ChatRequest) (hmsg : b.message ≠ "")
    (hkey : env.apiKey = none) :
    POSTA env (some b) = HandlerResult.serverError "Groq API key not set" none ∧
    POSTB env (some b) = HandlerResult.serverError "Groq API key not set" none ∧
    (POSTA env (some b)).status = 500 ∧
    (∀ u : List ChatMessage → Except String (Option String),
      POSTA ⟨env.apiKey, env.dataset, u⟩ (some b) = POSTA env (some b)) := by
  have ha : POSTA env (some b) = HandlerResult.serverError "Groq API key not set" none := by
    simp only [POSTA]
    rw [if_neg hmsg, if_pos (by rw [hkey]; rfl)]
  have hb : POSTB env (some b) = HandlerResult.serverError "Groq API key not set" none := by
    simp only [POSTB]
    rw [if_neg hmsg, if_pos (by rw [hkey]; rfl)]
  refine ⟨ha, hb, by rw [ha]; rfl, ?_⟩
  intro u
  rw [ha]
  simp only [POSTA]
  rw [if_neg hmsg, if_pos (by rw [hkey]; rfl)]

/-- Claim C7 witness: concrete request against an environment with the
key unset yields the 500 error. -/
theorem spec_C7_witness :
    POSTA envNoKey (some reqBrickell) =
      HandlerResult.serverError "Groq API key not set" none :=
  (spec_C7_missing_key envNoKey reqBrickell (by decide) rfl).1

/-- Claim C8: whenever the buffered handler returns the 200 envelope, the
response string is non-empty; and when the upstream call succeeds but its
content is absent or empty, the handler instead returns the 500 error
"Empty response from model" with no parsed envelope. -/
theorem spec_C8_nonempty_response :
    (∀ (env : Env) (body : Option ChatRequest) (c : String) (loc : Option (ℚ × ℚ)),
      POSTA env body = HandlerResult.ok c loc → c ≠ "") ∧
    (∀ (env : Env) (b : ChatRequest) (ns : List NeighborhoodRecord) (oc : Option String),
      b.message ≠ "" → env.apiKey.getD "" ≠ "" → env.dataset = some ns →
      env.upstream (conversation systemPromptA ns b.message) = Except.ok oc →
      (oc = none ∨ oc = some "") →
      POSTA env (some b) = HandlerResult.serverError "Empty response from model" none) := by
  constructor
  · exact postA_ok_nonempty
  · intro env b ns oc hmsg hkey hds hup hoc
    simp only [POSTA]
    rw [if_neg hmsg, if_neg hkey, hds]
    simp only []
    rw [hup]
    rcases hoc with rfl | rfl
    · rfl
    · simp

/-- Claim C8 witness: a successful upstream call yields a non-empty
response; an absent-content upstream result yields the 500 error. -/
theorem spec_C8_witness :
    ("answer" : String) ≠ "" ∧
    POSTA envEmptyContent (some reqBrickell) =
      HandlerResult.serverError "Empty response from model" none :=
  ⟨spec_C8_nonempty_response.1 envBrickell (some reqBrickell) "answer"
      (some (brickellRec.lat, brickellRec.lon)) postA_brickell_eval,
   spec_C8_nonempty_response.2 envEmptyContent reqBrickell [brickellRec] none
      (by decide) (by decide) rfl rfl (Or.inl rfl)⟩

/-- Claim C9 (as amended): the two handler variants are the same buffered
handler instantiated with two different system-prompt templates: each
equals the generic handler applied to its prompt composer, their outputs
coincide whenever the upstream result does not depend on the prompt, and
their neighborhood context blocks share the same data lines verbatim,
differing only in the trailing instruction sentence.  (The original
claim's "differ only in streaming behavior and response envelope" fails:
both variants buffer and return the same envelope, while their prompt
composition differs.) -/
theorem spec_C9_variants_differ_only_in_template :
    (∀ (env : Env) (body : Option ChatRequest),
      POSTA env body = POSTwith systemPromptA env body) ∧
    (∀ (env : Env) (body : Option ChatRequest),
      POSTB env body = POSTwith systemPromptB env body) ∧
    (∀ (env : Env) (body : Option ChatRequest) (out : Except String (Option String)),
      (∀ msgs, env.upstream msgs = out) → POSTA env body = POSTB env body) ∧
    (∀ r : NeighborhoodRecord,
      neighborhoodContextA r = neighborhoodContextCore r ++
        "\n\nUse this data to provide highly localized recommendations and reference any country- or region-specific policies or agencies that apply." ∧
      neighborhoodContextB r = neighborhoodContextCore r ++
        "\n\nUse this data to provide specific, localized advice. Reference the exact risk levels and tailor solutions to this neighborhood's characteristics.") := by
  refine ⟨fun env body => rfl, fun env body => rfl, ?_, ?_⟩
  · intro env body out h
    cases body with
    | none => rfl
    | some b => simp only [POSTA, POSTB, h]
  · intro r
    constructor
    · simp only [neighborhoodContextA, neighborhoodContextCore, String.append_assoc]
    · simp only [neighborhoodContextB, neighborhoodContextCore, String.append_assoc]

/-- Claim C9 witness: with a prompt-insensitive upstream, the two
variants produce identical responses on a concrete request. -/
theorem spec_C9_witness :
    POSTA envBrickell (some reqBrickell) = POSTB envBrickell (some reqBrickell) :=
  spec_C9_variants_differ_only_in_template.2.2.1 envBrickell (some reqBrickell)
    (Except.ok (some "answer")) (fun _ => rfl)

/-- Claim C9 counterexample: the two variants' prompt composition is not
identical — already with no matched neighborhood the composed system
prompts differ, refuting "matching, prompt composition, and error
behavior of the two variants are otherwise identical". -/
theorem spec_C9_counterexample : systemPromptA none ≠ systemPromptB none := by
  decide

/-- Claim C10: the handler's output is independent of the request's
sessionId and client-sent history: two bodies with the same message and
arbitrary sessionId/history produce identical results, for both
variants. -/
theorem spec_C10_session_noninterference (env : Env) (m s1 s2 : String)
    (h1 h2 : List ChatMessage) :
    POSTA env (some ⟨m, s1, h1⟩) = POSTA env (some ⟨m, s2, h2⟩) ∧
    POSTB env (some ⟨m, s1, h1⟩) = POSTB env (some ⟨m, s2, h2⟩) :=
  ⟨rfl, rfl⟩
